import Mathlib

/-
Verification of the Company Onboarding and Provisioning Workflow of the
HR_Support repository. The embedding below models, from the frontend
sources, the onboarding page state (frontend/src/pages/OnboardingPage.jsx),
the OAuth callback page (OAuthCallbackPage), and the wizard upload loop of
the second onboarding dashboard. Network results are supplied as parameters
since every backend call is an external round trip; emitted side effects
(network requests, durable-store writes, navigations) are recorded as an
ordered list of operations.
-/

namespace HRSupport

/-- The formData react state of OnboardingPage.jsx (lines 9-17); the
policy file is modelled by its name. -/
structure FormData where
  companyName : String
  industry : String
  contactName : String
  contactEmail : String
  policiesText : String
  dbUrl : String
  policyFile : Option String
deriving DecidableEq

/-- Initial formData (OnboardingPage.jsx lines 9-17): every field empty. -/
def initialFormData : FormData :=
  { companyName := "", industry := "", contactName := "", contactEmail := ""
  , policiesText := "", dbUrl := "", policyFile := none }

/-- The durable localStorage keys the onboarding flow uses:
botivate_onboarding_company, botivate_google_connected (raw string value,
compared against the string true), botivate_onboarding_form (the serialized
form snapshot). -/
structure Store where
  onboardingCompany : Option String
  googleConnected : Option String
  onboardingForm : Option String
deriving DecidableEq

/-- Host facilities used by the page: JSON.parse may fail (modelled as
Option) and JSON.stringify serializes the form. Both are parameters of the
model since their implementations live in the browser, not the repository. -/
structure Env where
  parse : String → Option FormData
  stringify : FormData → String

/-- Volatile react component state of OnboardingPage.jsx plus the durable
store it reads and writes. The page has two screens: step 1 collects the
profile, step 2 holds the authorization button and the resource form. -/
structure St where
  step : Nat
  formData : FormData
  globalCompanyId : Option String
  googleConnected : Bool
  store : Store
deriving DecidableEq

/-- The JS string trim used by the page (strip leading and trailing
whitespace), written over the character list so it evaluates. -/
def jsTrim (s : String) : String :=
  String.mk (((s.data.dropWhile Char.isWhitespace).reverse.dropWhile Char.isWhitespace).reverse)

/-- Payload of the registration request (OnboardingPage.jsx lines 54-59). -/
structure CompanyPayload where
  name : String
  industry : String
  hr_name : String
  hr_email : String
deriving DecidableEq

/-- Result of one awaited network call: success with a value, or a thrown
request failure. -/
inductive NetRes (α : Type) where
  | ok (a : α)
  | err
deriving DecidableEq

/-- Observable operations a handler performs, in program order: network
requests, durable-store writes and removals, and navigations. -/
inductive Op where
  | registerCall (payload : CompanyPayload)
  | storeSetCompany (v : String)
  | storeSetGoogle (v : String)
  | storeSetForm (v : String)
  | storeRemoveCompany
  | storeRemoveGoogle
  | storeRemoveForm
  | navigateExternal
  | navigateLogin
  | navigateOnboarding
  | bindCall (companyId : Option String) (spreadsheetId : String)
  | textPolicyCall (companyId : Option String) (content : String)
  | docPolicyCall (companyId : Option String) (file : String)
  | provisionCall (companyId : Option String) (dbId : String)
  | exchangeCall (code : String) (companyId : String)
deriving DecidableEq

/-- Fresh component state on mount (OnboardingPage.jsx lines 8-21):
step 1, empty form, no company id, not connected. -/
def initSt (store : Store) : St :=
  { step := 1, formData := initialFormData, globalCompanyId := none
  , googleConnected := false, store := store }

/-- The restore useEffect (OnboardingPage.jsx lines 25-42): when the store
holds a company id and the connected flag equals the string true, rehydrate
the id and the flag, try to parse the saved form snapshot (a parse failure
is swallowed by the empty catch), and jump to step 2. Otherwise do nothing. -/
def restoreEffect (env : Env) (s : St) : St :=
  match s.store.onboardingCompany with
  | some cid =>
    if s.store.googleConnected = some "true" then
      let s1 : St := { s with globalCompanyId := some cid, googleConnected := true }
      let s2 : St :=
        match s1.store.onboardingForm with
        | some str =>
          match env.parse str with
          | some f => { s1 with formData := f }
          | none => s1
        | none => s1
      { s2 with step := 2 }
    else s
  | none => s

/-- A page mount: fresh state followed by the restore effect. -/
def mount (env : Env) (store : Store) : St :=
  restoreEffect env (initSt store)

/-- The registration payload built from the form
(OnboardingPage.jsx lines 54-59). -/
def payloadOf (f : FormData) : CompanyPayload :=
  { name := f.companyName, industry := f.industry
  , hr_name := f.contactName, hr_email := f.contactEmail }

/-- handleNext (OnboardingPage.jsx lines 44-78): at step 1 an empty company
name or contact email blocks with a toast and no effect; otherwise, when no
company id is in memory the registration request is issued and on success
the id and the form snapshot are persisted before the step advances; when a
company id is already in memory the handler only advances the step. -/
def handleNext (env : Env) (s : St) (registerRes : NetRes String) : St × List Op :=
  if s.step = 1 ∧ (s.formData.companyName = "" ∨ s.formData.contactEmail = "") then
    (s, [])
  else
    match s.globalCompanyId with
    | none =>
      match registerRes with
      | NetRes.ok newId =>
        ({ s with globalCompanyId := some newId
                , store := { s.store with onboardingCompany := some newId
                                        , onboardingForm := some (env.stringify s.formData) }
                , step := 2 },
         [Op.registerCall (payloadOf s.formData), Op.storeSetCompany newId,
          Op.storeSetForm (env.stringify s.formData)])
      | NetRes.err => (s, [Op.registerCall (payloadOf s.formData)])
    | some _ => ({ s with step := 2 }, [])

/-- handleGoogleOAuth (OnboardingPage.jsx lines 80-93): returns immediately
when no company id is in memory; otherwise saves the exact current form
fields into the store and only then navigates to the external provider. -/
def handleGoogleOAuth (env : Env) (s : St) : St × List Op :=
  match s.globalCompanyId with
  | none => (s, [])
  | some _ =>
    ({ s with store := { s.store with onboardingForm := some (env.stringify s.formData) } },
     [Op.storeSetForm (env.stringify s.formData), Op.navigateExternal])

/-- Outcome of the finalize submission. -/
inductive SubmitOutcome where
  | blockedNoGoogle
  | blockedRequired
  | failed
  | completed
deriving DecidableEq

/-- The store after handleSubmit removes the three onboarding keys
(OnboardingPage.jsx lines 152-154). -/
def clearedStore : Store :=
  { onboardingCompany := none, googleConnected := none, onboardingForm := none }

/-- Tail of handleSubmit (OnboardingPage.jsx lines 151-158): clear the
store keys and navigate to the login page. -/
def finishSubmit (s : St) : St × List Op × SubmitOutcome :=
  ({ s with store := clearedStore },
   [Op.storeRemoveCompany, Op.storeRemoveGoogle, Op.storeRemoveForm, Op.navigateLogin],
   SubmitOutcome.completed)

/-- Provisioning stage of handleSubmit (OnboardingPage.jsx lines 143-149):
only when a database id was obtained is the provision request issued; a
thrown request lands in the catch block. -/
def submitProvision (s : St) (dbId : Option String) (provRes : NetRes Unit) :
    St × List Op × SubmitOutcome :=
  match dbId with
  | none => finishSubmit s
  | some d =>
    match provRes with
    | NetRes.ok _ =>
      let r := finishSubmit s
      (r.1, Op.provisionCall s.globalCompanyId d :: r.2.1, r.2.2)
    | NetRes.err => (s, [Op.provisionCall s.globalCompanyId d], SubmitOutcome.failed)

/-- Document policy stage of handleSubmit (OnboardingPage.jsx lines
130-141): upload only when a file was chosen; a thrown upload lands in the
catch block and aborts the rest of the submission. -/
def submitDocPolicy (s : St) (dbId : Option String) (docRes provRes : NetRes Unit) :
    St × List Op × SubmitOutcome :=
  match s.formData.policyFile with
  | none => submitProvision s dbId provRes
  | some file =>
    match docRes with
    | NetRes.ok _ =>
      let r := submitProvision s dbId provRes
      (r.1, Op.docPolicyCall s.globalCompanyId file :: r.2.1, r.2.2)
    | NetRes.err => (s, [Op.docPolicyCall s.globalCompanyId file], SubmitOutcome.failed)

/-- Text policy stage of handleSubmit (OnboardingPage.jsx lines 120-128):
runs only when the trimmed text is nonempty; a thrown request aborts the
rest of the submission. -/
def submitTextPolicy (s : St) (dbId : Option String) (textRes docRes provRes : NetRes Unit) :
    St × List Op × SubmitOutcome :=
  if jsTrim s.formData.policiesText = "" then
    submitDocPolicy s dbId docRes provRes
  else
    match textRes with
    | NetRes.ok _ =>
      let r := submitDocPolicy s dbId docRes provRes
      (r.1, Op.textPolicyCall s.globalCompanyId s.formData.policiesText :: r.2.1, r.2.2)
    | NetRes.err =>
      (s, [Op.textPolicyCall s.globalCompanyId s.formData.policiesText], SubmitOutcome.failed)

/-- handleSubmit (OnboardingPage.jsx lines 95-166): blocks with a toast
when Google is not connected; binds the database only when dbUrl is
nonempty (the thrown request aborts everything after it); then policies,
then provisioning, then store cleanup and navigation to login. -/
def handleSubmit (s : St) (bindRes : NetRes String) (textRes docRes provRes : NetRes Unit) :
    St × List Op × SubmitOutcome :=
  if s.googleConnected = false then (s, [], SubmitOutcome.blockedNoGoogle)
  else
    if s.formData.dbUrl = "" then
      submitTextPolicy s none textRes docRes provRes
    else
      match bindRes with
      | NetRes.ok dbId =>
        let r := submitTextPolicy s (some dbId) textRes docRes provRes
        (r.1, Op.bindCall s.globalCompanyId s.formData.dbUrl :: r.2.1, r.2.2)
      | NetRes.err =>
        (s, [Op.bindCall s.globalCompanyId s.formData.dbUrl], SubmitOutcome.failed)

/-- The step 2 form submission as the browser performs it: the dbUrl input
carries the required attribute (OnboardingPage.jsx line 297) and is
rendered exactly when Google is connected, so constraint validation blocks
the submission when it is rendered and empty; otherwise handleSubmit runs. -/
def submitResources (s : St) (bindRes : NetRes String) (textRes docRes provRes : NetRes Unit) :
    St × List Op × SubmitOutcome :=
  if s.googleConnected = true ∧ s.formData.dbUrl = "" then
    (s, [], SubmitOutcome.blockedRequired)
  else
    handleSubmit s bindRes textRes docRes provRes

/-- States of the onboarding page that are still interactive: a mount on
some store, followed by form edits and handler runs that did not navigate
away (a Google click that navigated to the provider and a submission that
completed both leave the page). -/
inductive Reachable (env : Env) : St → Prop where
  | mountPage (store : Store) : Reachable env (mount env store)
  | edit (s : St) (f : FormData) :
      Reachable env s → Reachable env { s with formData := f }
  | next (s : St) (r : NetRes String) :
      Reachable env s → Reachable env (handleNext env s r).1
  | google (s : St) :
      Reachable env s → (handleGoogleOAuth env s).2 = [] →
      Reachable env (handleGoogleOAuth env s).1
  | submit (s : St) (b : NetRes String) (t d p : NetRes Unit) :
      Reachable env s → (submitResources s b t d p).2.2 ≠ SubmitOutcome.completed →
      Reachable env (submitResources s b t d p).1

/-- State of the second onboarding wizard (the HR dashboard page): its
step index, the registered company id and the chosen document files,
modelled by their names. -/
structure WizardState where
  step : Nat
  companyId : String
  docFiles : List String
  dbConnectionId : String
deriving DecidableEq

/-- The for loop of handleUploadDocs: each file is uploaded by one awaited
request (the request title is derived from the file name); the first thrown
upload leaves the loop through the catch block, so later files are never
attempted. Returns the operations performed and whether every upload
succeeded. -/
def uploadDocsLoop (cid : String) (outcome : String → NetRes Unit) :
    List String → List Op × Bool
  | [] => ([], true)
  | f :: fs =>
    match outcome f with
    | NetRes.ok _ =>
      let r := uploadDocsLoop cid outcome fs
      (Op.docPolicyCall (some cid) f :: r.1, r.2)
    | NetRes.err => ([Op.docPolicyCall (some cid) f], false)

/-- handleUploadDocs of the wizard page: uploads the chosen files in order
inside one try block; only when all succeed does the wizard advance to
step 3, otherwise a toast reports the failure and the step is unchanged. -/
def handleUploadDocs (w : WizardState) (outcome : String → NetRes Unit) :
    WizardState × List Op :=
  let r := uploadDocsLoop w.companyId outcome w.docFiles
  if r.2 then ({ w with step := 3 }, r.1) else (w, r.1)

/-- The files the upload loop actually attempts: every file up to and
including the first failing one. -/
def attemptedFiles (outcome : String → NetRes Unit) : List String → List String
  | [] => []
  | f :: fs =>
    match outcome f with
    | NetRes.ok _ => f :: attemptedFiles outcome fs
    | NetRes.err => [f]

/-- Whether every file in the list uploads successfully. -/
def allUploadsOk (outcome : String → NetRes Unit) : List String → Bool
  | [] => true
  | f :: fs =>
    match outcome f with
    | NetRes.ok _ => allUploadsOk outcome fs
    | NetRes.err => false

/-- Query parameters carried by the OAuth callback URL. -/
structure CallbackParams where
  code : Option String
  error : Option String
deriving DecidableEq

/-- Outcome of processing the OAuth callback. -/
inductive CallbackResult where
  | denied
  | noCode
  | missingContext
  | exchangeFailed
  | success
deriving DecidableEq

/-- processOAuth of OAuthCallbackPage (part_003 lines 272-323): an error
parameter means the authorization was denied or cancelled (checked first);
then a missing code; then a missing pending company id in the store; only
then is the code exchanged, and on success the connected flag is set before
navigating back to the onboarding page. Every path navigates back. -/
def processOAuth (p : CallbackParams) (store : Store) (exchangeRes : NetRes Unit) :
    CallbackResult × Store × List Op :=
  match p.error with
  | some _ => (CallbackResult.denied, store, [Op.navigateOnboarding])
  | none =>
    match p.code with
    | none => (CallbackResult.noCode, store, [Op.navigateOnboarding])
    | some c =>
      match store.onboardingCompany with
      | none => (CallbackResult.missingContext, store, [Op.navigateOnboarding])
      | some cid =>
        match exchangeRes with
        | NetRes.ok _ =>
          (CallbackResult.success,
           { store with googleConnected := some "true" },
           [Op.exchangeCall c cid, Op.storeSetGoogle "true", Op.navigateOnboarding])
        | NetRes.err =>
          (CallbackResult.exchangeFailed, store, [Op.exchangeCall c cid, Op.navigateOnboarding])

/-- One failed delivery in the provisioning result, naming the employee
reference and a reason. -/
structure ProvisionFailure where
  employeeRef : String
  reason : String
deriving DecidableEq

/-- Aggregate result of bulk credential provisioning. -/
structure ProvisionResult where
  generatedCount : Nat
  deliveredCount : Nat
  failures : List ProvisionFailure
deriving DecidableEq

/-- Outcome of one credential delivery attempt. -/
inductive Delivery where
  | delivered
  | deliveryFailed (reason : String)
deriving DecidableEq

/-- Modelled from the spec: the backend provisioning endpoint
(POST companies slash databases slash provision) is not part of the
frontend sources, only its callers are. Per the spec, for each employee
record resolved from the bound source one credential is generated and one
delivery attempt is made; the result aggregates the generated count, the
delivered count and the per-employee failures with reasons. -/
def provisionCredentials (employees : List String) (deliver : String → Delivery) :
    ProvisionResult :=
  { generatedCount := employees.length
  , deliveredCount :=
      (employees.filter (fun e =>
        match deliver e with
        | Delivery.delivered => true
        | Delivery.deliveryFailed _ => false)).length
  , failures :=
      employees.filterMap (fun e =>
        match deliver e with
        | Delivery.delivered => none
        | Delivery.deliveryFailed r => some { employeeRef := e, reason := r }) }

/-- The form fields after the restore effect rehydrates a granted session:
the parsed snapshot when one is present and parses, the previous fields
otherwise. -/
def restoredForm (env : Env) (s : St) : FormData :=
  match s.store.onboardingForm with
  | some str =>
    match env.parse str with
    | some f => f
    | none => s.formData
  | none => s.formData

/-- Concrete host environment for witnesses: every snapshot fails to parse
and serialization is a fixed token. -/
def env0 : Env := { parse := fun _ => none, stringify := fun _ => "snapshot" }

/-- Store as left behind by a denied redirect: company id persisted by the
registration, no connected flag. -/
def deniedStore : Store :=
  { onboardingCompany := some "C1", googleConnected := none, onboardingForm := some "snapshot" }

/-- A filled profile typed by the user after the denied redirect. -/
def profile0 : FormData :=
  { companyName := "Acme", industry := "", contactName := "Jane", contactEmail := "a@acme.com"
  , policiesText := "", dbUrl := "", policyFile := none }

/-- The page state after remounting on the denied-redirect store and typing
the profile again. -/
def deniedResumeState : St :=
  { mount env0 deniedStore with formData := profile0 }

/-- Store holding a granted session: company id, connected flag, snapshot. -/
def grantedStore : Store :=
  { onboardingCompany := some "C1", googleConnected := some "true", onboardingForm := some "bad json" }

/-- A state with an arbitrary stale volatile step, used to show the restore
effect ignores whatever step was held before. -/
def staleState : St :=
  { step := 7, formData := profile0, globalCompanyId := none
  , googleConnected := false, store := grantedStore }

/-- A step 2 state ready to finalize: connected, database URL filled, no
policies. -/
def readyState : St :=
  { step := 2
  , formData := { initialFormData with dbUrl := "SHEET1" }
  , globalCompanyId := some "C1", googleConnected := true
  , store := grantedStore }

/-- Wizard state on the document step with two chosen files. -/
def wizard0 : WizardState :=
  { step := 2, companyId := "C1", docFiles := ["handbook.pdf", "leave.pdf"], dbConnectionId := "" }

/-- Upload outcome failing exactly on the first wizard file. -/
def outcome0 : String → NetRes Unit :=
  fun f => if f = "handbook.pdf" then NetRes.err else NetRes.ok ()

/-- Concrete employee list for the provisioning witness. -/
def employees0 : List String := ["E1", "E7"]

/-- Concrete delivery outcome failing exactly on employee E7. -/
def deliver0 : String → Delivery :=
  fun e => if e = "E7" then Delivery.deliveryFailed "invalid_email" else Delivery.delivered

/-- A submission stage that did not complete left the component state
untouched: provisioning stage. -/
theorem submitProvision_not_completed (s : St) (dbId : Option String) (p : NetRes Unit)
    (h : (submitProvision s dbId p).2.2 ≠ SubmitOutcome.completed) :
    (submitProvision s dbId p).1 = s := by
  cases dbId with
  | none => exact absurd rfl h
  | some d =>
    cases p with
    | ok a => exact absurd rfl h
    | err => rfl

/-- Characterization: document stage with no chosen file skips to the
provisioning stage. -/
theorem submitDocPolicy_nofile (s : St) (dbId : Option String) (dres pres : NetRes Unit)
    (h : s.formData.policyFile = none) :
    submitDocPolicy s dbId dres pres = submitProvision s dbId pres := by
  unfold submitDocPolicy
  rw [h]

/-- Characterization: document stage with a chosen file and a successful
upload prepends the upload request and continues with provisioning. -/
theorem submitDocPolicy_file_ok (s : St) (dbId : Option String) (pres : NetRes Unit)
    (u : Unit) (file : String) (h : s.formData.policyFile = some file) :
    submitDocPolicy s dbId (NetRes.ok u) pres =
      ((submitProvision s dbId pres).1,
       Op.docPolicyCall s.globalCompanyId file :: (submitProvision s dbId pres).2.1,
       (submitProvision s dbId pres).2.2) := by
  unfold submitDocPolicy
  rw [h]

/-- Characterization: document stage with a chosen file and a thrown upload
aborts the submission. -/
theorem submitDocPolicy_file_err (s : St) (dbId : Option String) (pres : NetRes Unit)
    (file : String) (h : s.formData.policyFile = some file) :
    submitDocPolicy s dbId NetRes.err pres =
      (s, [Op.docPolicyCall s.globalCompanyId file], SubmitOutcome.failed) := by
  unfold submitDocPolicy
  rw [h]

theorem submitDocPolicy_not_completed (s : St) (dbId : Option String) (dres pres : NetRes Unit)
    (h : (submitDocPolicy s dbId dres pres).2.2 ≠ SubmitOutcome.completed) :
    (submitDocPolicy s dbId dres pres).1 = s := by
  cases hf : s.formData.policyFile with
  | none =>
    rw [submitDocPolicy_nofile s dbId dres pres hf] at h ⊢
    exact submitProvision_not_completed s dbId pres h
  | some file =>
    cases dres with
    | ok a =>
      rw [submitDocPolicy_file_ok s dbId pres a file hf] at h ⊢
      exact submitProvision_not_completed s dbId pres h
    | err =>
      rw [submitDocPolicy_file_err s dbId pres file hf]

/-- A submission stage that did not complete left the component state
untouched: text policy stage. -/
theorem submitTextPolicy_not_completed (s : St) (dbId : Option String)
    (tres dres pres : NetRes Unit)
    (h : (submitTextPolicy s dbId tres dres pres).2.2 ≠ SubmitOutcome.completed) :
    (submitTextPolicy s dbId tres dres pres).1 = s := by
  unfold submitTextPolicy at h ⊢
  by_cases ht : jsTrim s.formData.policiesText = ""
  · rw [if_pos ht] at h ⊢
    exact submitDocPolicy_not_completed s dbId dres pres h
  · rw [if_neg ht] at h ⊢
    cases tres with
    | ok a => exact submitDocPolicy_not_completed s dbId dres pres h
    | err => rfl

/-- A finalize submission that did not complete left the component state
untouched. -/
theorem handleSubmit_not_completed (s : St) (b : NetRes String) (t d p : NetRes Unit)
    (h : (handleSubmit s b t d p).2.2 ≠ SubmitOutcome.completed) :
    (handleSubmit s b t d p).1 = s := by
  unfold handleSubmit at h ⊢
  by_cases hg : s.googleConnected = false
  · rw [if_pos hg] at h ⊢
  · rw [if_neg hg] at h ⊢
    by_cases hd : s.formData.dbUrl = ""
    · rw [if_pos hd] at h ⊢
      exact submitTextPolicy_not_completed s none t d p h
    · rw [if_neg hd] at h ⊢
      cases b with
      | ok dbId => exact submitTextPolicy_not_completed s (some dbId) t d p h
      | err => rfl

/-- A blocked or failed form submission leaves the component state
untouched. -/
theorem submitResources_not_completed (s : St) (b : NetRes String) (t d p : NetRes Unit)
    (h : (submitResources s b t d p).2.2 ≠ SubmitOutcome.completed) :
    (submitResources s b t d p).1 = s := by
  unfold submitResources at h ⊢
  by_cases hc : s.googleConnected = true ∧ s.formData.dbUrl = ""
  · rw [if_pos hc] at h ⊢
  · rw [if_neg hc] at h ⊢
    exact handleSubmit_not_completed s b t d p h

/-- No submission stage ever changes the in-memory company id:
provisioning stage. -/
theorem submitProvision_company (s : St) (dbId : Option String) (p : NetRes Unit) :
    (submitProvision s dbId p).1.globalCompanyId = s.globalCompanyId := by
  cases dbId with
  | none => rfl
  | some d => cases p with
    | ok a => rfl
    | err => rfl

/-- No submission stage ever changes the in-memory company id:
document policy stage. -/
theorem submitDocPolicy_company (s : St) (dbId : Option String) (dres pres : NetRes Unit) :
    (submitDocPolicy s dbId dres pres).1.globalCompanyId = s.globalCompanyId := by
  unfold submitDocPolicy
  cases hf : s.formData.policyFile with
  | none => exact submitProvision_company s dbId pres
  | some file =>
    cases dres with
    | ok a => exact submitProvision_company s dbId pres
    | err => rfl

/-- No submission stage ever changes the in-memory company id:
text policy stage. -/
theorem submitTextPolicy_company (s : St) (dbId : Option String)
    (tres dres pres : NetRes Unit) :
    (submitTextPolicy s dbId tres dres pres).1.globalCompanyId = s.globalCompanyId := by
  unfold submitTextPolicy
  by_cases ht : jsTrim s.formData.policiesText = ""
  · rw [if_pos ht]
    exact submitDocPolicy_company s dbId dres pres
  · rw [if_neg ht]
    cases tres with
    | ok a => exact submitDocPolicy_company s dbId dres pres
    | err => rfl

/-- The finalize submission never changes the in-memory company id. -/
theorem handleSubmit_company (s : St) (b : NetRes String) (t d p : NetRes Unit) :
    (handleSubmit s b t d p).1.globalCompanyId = s.globalCompanyId := by
  unfold handleSubmit
  by_cases hg : s.googleConnected = false
  · rw [if_pos hg]
  · rw [if_neg hg]
    by_cases hd : s.formData.dbUrl = ""
    · rw [if_pos hd]
      exact submitTextPolicy_company s none t d p
    · rw [if_neg hd]
      cases b with
      | ok dbId => exact submitTextPolicy_company s (some dbId) t d p
      | err => rfl

/-- Characterization: text stage with blank trimmed text skips to the
document stage. -/
theorem submitTextPolicy_empty (s : St) (dbId : Option String)
    (tres dres pres : NetRes Unit) (h : jsTrim s.formData.policiesText = "") :
    submitTextPolicy s dbId tres dres pres = submitDocPolicy s dbId dres pres := by
  unfold submitTextPolicy
  rw [if_pos h]

/-- Characterization: text stage with nonblank text and a successful
request prepends the request and continues. -/
theorem submitTextPolicy_ok (s : St) (dbId : Option String)
    (dres pres : NetRes Unit) (u : Unit) (h : ¬ jsTrim s.formData.policiesText = "") :
    submitTextPolicy s dbId (NetRes.ok u) dres pres =
      ((submitDocPolicy s dbId dres pres).1,
       Op.textPolicyCall s.globalCompanyId s.formData.policiesText
         :: (submitDocPolicy s dbId dres pres).2.1,
       (submitDocPolicy s dbId dres pres).2.2) := by
  simp [submitTextPolicy, h]

/-- Characterization: text stage with nonblank text and a thrown request
aborts the submission. -/
theorem submitTextPolicy_err (s : St) (dbId : Option String)
    (dres pres : NetRes Unit) (h : ¬ jsTrim s.formData.policiesText = "") :
    submitTextPolicy s dbId NetRes.err dres pres =
      (s, [Op.textPolicyCall s.globalCompanyId s.formData.policiesText],
       SubmitOutcome.failed) := by
  simp [submitTextPolicy, h]

/-- Characterization: the finalize handler blocks when Google is not
connected. -/
theorem handleSubmit_nogoogle (s : St) (b : NetRes String) (t d p : NetRes Unit)
    (h : s.googleConnected = false) :
    handleSubmit s b t d p = (s, [], SubmitOutcome.blockedNoGoogle) := by
  simp [handleSubmit, h]

/-- Characterization: the finalize handler with an empty database URL
skips binding and runs the remaining stages with no database id. -/
theorem handleSubmit_nodb (s : St) (b : NetRes String) (t d p : NetRes Unit)
    (hg : s.googleConnected = true) (hd : s.formData.dbUrl = "") :
    handleSubmit s b t d p = submitTextPolicy s none t d p := by
  simp [handleSubmit, hg, hd]

/-- Characterization: the finalize handler with a nonempty database URL
and a successful binding prepends the binding request and threads the new
database id onward. -/
theorem handleSubmit_bind_ok (s : St) (t d p : NetRes Unit) (i : String)
    (hg : s.googleConnected = true) (hd : ¬ s.formData.dbUrl = "") :
    handleSubmit s (NetRes.ok i) t d p =
      ((submitTextPolicy s (some i) t d p).1,
       Op.bindCall s.globalCompanyId s.formData.dbUrl
         :: (submitTextPolicy s (some i) t d p).2.1,
       (submitTextPolicy s (some i) t d p).2.2) := by
  simp [handleSubmit, hg, hd]

/-- Characterization: the finalize handler with a nonempty database URL
and a thrown binding request aborts everything after the binding. -/
theorem handleSubmit_bind_err (s : St) (t d p : NetRes Unit)
    (hg : s.googleConnected = true) (hd : ¬ s.formData.dbUrl = "") :
    handleSubmit s NetRes.err t d p =
      (s, [Op.bindCall s.globalCompanyId s.formData.dbUrl], SubmitOutcome.failed) := by
  simp [handleSubmit, hg, hd]

/-- Characterization: the browser blocks the step 2 submission when the
required database URL input is rendered and empty. -/
theorem submitResources_blocked (s : St) (b : NetRes String) (t d p : NetRes Unit)
    (h1 : s.googleConnected = true) (h2 : s.formData.dbUrl = "") :
    submitResources s b t d p = (s, [], SubmitOutcome.blockedRequired) := by
  simp [submitResources, h1, h2]

/-- Characterization: when constraint validation passes, the step 2
submission is the finalize handler. -/
theorem submitResources_pass (s : St) (b : NetRes String) (t d p : NetRes Unit)
    (h : ¬ (s.googleConnected = true ∧ s.formData.dbUrl = "")) :
    submitResources s b t d p = handleSubmit s b t d p := by
  simp [submitResources, h]

/-- A provisioning request in the operations of the provisioning stage
names exactly the database id that stage received. -/
theorem submitProvision_mem (s : St) (dbId : Option String) (p : NetRes Unit)
    (cid : Option String) (d : String)
    (h : Op.provisionCall cid d ∈ (submitProvision s dbId p).2.1) : dbId = some d := by
  cases dbId with
  | none => simp [submitProvision, finishSubmit] at h
  | some d2 =>
    cases p with
    | ok a =>
      simp [submitProvision, finishSubmit] at h
      simp [h.2]
    | err =>
      simp [submitProvision] at h
      simp [h.2]

/-- A provisioning request in the operations of the document stage names
exactly the database id that stage received. -/
theorem submitDocPolicy_mem (s : St) (dbId : Option String) (dres pres : NetRes Unit)
    (cid : Option String) (d : String)
    (h : Op.provisionCall cid d ∈ (submitDocPolicy s dbId dres pres).2.1) :
    dbId = some d := by
  cases hf : s.formData.policyFile with
  | none =>
    rw [submitDocPolicy_nofile s dbId dres pres hf] at h
    exact submitProvision_mem s dbId pres cid d h
  | some file =>
    cases dres with
    | ok a =>
      rw [submitDocPolicy_file_ok s dbId pres a file hf] at h
      rcases List.mem_cons.mp h with h1 | h1
      · exact absurd h1 (by simp)
      · exact submitProvision_mem s dbId pres cid d h1
    | err =>
      rw [submitDocPolicy_file_err s dbId pres file hf] at h
      simp at h

/-- A provisioning request in the operations of the text stage names
exactly the database id that stage received. -/
theorem submitTextPolicy_mem (s : St) (dbId : Option String) (tres dres pres : NetRes Unit)
    (cid : Option String) (d : String)
    (h : Op.provisionCall cid d ∈ (submitTextPolicy s dbId tres dres pres).2.1) :
    dbId = some d := by
  by_cases ht : jsTrim s.formData.policiesText = ""
  · rw [submitTextPolicy_empty s dbId tres dres pres ht] at h
    exact submitDocPolicy_mem s dbId dres pres cid d h
  · cases tres with
    | ok a =>
      rw [submitTextPolicy_ok s dbId dres pres a ht] at h
      rcases List.mem_cons.mp h with h1 | h1
      · exact absurd h1 (by simp)
      · exact submitDocPolicy_mem s dbId dres pres cid d h1
    | err =>
      rw [submitTextPolicy_err s dbId dres pres ht] at h
      simp at h

/-- A provisioning request is issued by the finalize handler only when the
database URL was nonempty and the binding request succeeded with exactly
that database id. -/
theorem handleSubmit_provision_mem (s : St) (b : NetRes String) (t d p : NetRes Unit)
    (cid : Option String) (dbId : String)
    (h : Op.provisionCall cid dbId ∈ (handleSubmit s b t d p).2.1) :
    b = NetRes.ok dbId ∧ s.formData.dbUrl ≠ "" := by
  cases hg : s.googleConnected with
  | false =>
    rw [handleSubmit_nogoogle s b t d p hg] at h
    simp at h
  | true =>
    by_cases hd : s.formData.dbUrl = ""
    · rw [handleSubmit_nodb s b t d p hg hd] at h
      have h2 := submitTextPolicy_mem s none t d p cid dbId h
      exact absurd h2 (by simp)
    · cases b with
      | ok i =>
        rw [handleSubmit_bind_ok s t d p i hg hd] at h
        rcases List.mem_cons.mp h with h1 | h1
        · exact absurd h1 (by simp)
        · have h2 := submitTextPolicy_mem s (some i) t d p cid dbId h1
          refine ⟨?_, hd⟩
          rw [Option.some.inj h2]
      | err =>
        rw [handleSubmit_bind_err s t d p hg hd] at h
        simp at h

/-- A completed step 2 submission had a nonempty database URL and a
successful binding. -/
theorem submitResources_completed (s : St) (b : NetRes String) (t d p : NetRes Unit)
    (h : (submitResources s b t d p).2.2 = SubmitOutcome.completed) :
    s.formData.dbUrl ≠ "" ∧ ∃ i, b = NetRes.ok i := by
  by_cases hc : s.googleConnected = true ∧ s.formData.dbUrl = ""
  · rw [submitResources_blocked s b t d p hc.1 hc.2] at h
    simp at h
  · rw [submitResources_pass s b t d p hc] at h
    cases hg : s.googleConnected with
    | false =>
      rw [handleSubmit_nogoogle s b t d p hg] at h
      simp at h
    | true =>
      by_cases hd : s.formData.dbUrl = ""
      · exact absurd ⟨hg, hd⟩ hc
      · cases b with
        | ok i => exact ⟨hd, i, rfl⟩
        | err =>
          rw [handleSubmit_bind_err s t d p hg hd] at h
          simp at h

/-- Characterization: the next handler at step 1 blocks on an empty
company name or contact email. -/
theorem handleNext_blocked (env : Env) (s : St) (r : NetRes String)
    (h : s.step = 1 ∧ (s.formData.companyName = "" ∨ s.formData.contactEmail = "")) :
    handleNext env s r = (s, []) := by
  unfold handleNext
  rw [if_pos h]

/-- Characterization: the next handler with an in-memory company id only
advances the step, issuing no operation. -/
theorem handleNext_short (env : Env) (s : St) (r : NetRes String) (cid : String)
    (hv : ¬ (s.step = 1 ∧ (s.formData.companyName = "" ∨ s.formData.contactEmail = "")))
    (h : s.globalCompanyId = some cid) :
    handleNext env s r = ({ s with step := 2 }, []) := by
  simp [handleNext, hv, h]

/-- Characterization: the next handler with no in-memory company id and a
successful registration persists the new id and the form snapshot and
advances. -/
theorem handleNext_register_ok (env : Env) (s : St) (newId : String)
    (hv : ¬ (s.step = 1 ∧ (s.formData.companyName = "" ∨ s.formData.contactEmail = "")))
    (h : s.globalCompanyId = none) :
    handleNext env s (NetRes.ok newId) =
      ({ s with globalCompanyId := some newId
              , store := { s.store with onboardingCompany := some newId
                                      , onboardingForm := some (env.stringify s.formData) }
              , step := 2 },
       [Op.registerCall (payloadOf s.formData), Op.storeSetCompany newId,
        Op.storeSetForm (env.stringify s.formData)]) := by
  simp [handleNext, hv, h]

/-- Characterization: the next handler with no in-memory company id and a
thrown registration issues the request and changes nothing. -/
theorem handleNext_register_err (env : Env) (s : St)
    (hv : ¬ (s.step = 1 ∧ (s.formData.companyName = "" ∨ s.formData.contactEmail = "")))
    (h : s.globalCompanyId = none) :
    handleNext env s NetRes.err = (s, [Op.registerCall (payloadOf s.formData)]) := by
  simp [handleNext, hv, h]

/-- The upload loop performs exactly the attempted prefix of the files and
succeeds exactly when every file uploads. -/
theorem uploadDocsLoop_spec (cid : String) (outcome : String → NetRes Unit) :
    ∀ fs : List String,
      uploadDocsLoop cid outcome fs =
        ((attemptedFiles outcome fs).map (Op.docPolicyCall (some cid)),
         allUploadsOk outcome fs) := by
  intro fs
  induction fs with
  | nil => rfl
  | cons f fs ih =>
    cases ho : outcome f with
    | ok a => simp [uploadDocsLoop, attemptedFiles, allUploadsOk, ho, ih]
    | err => simp [uploadDocsLoop, attemptedFiles, allUploadsOk, ho]

/-- Characterization of the restore effect when no company id is stored:
nothing happens. -/
theorem restoreEffect_none (env : Env) (s : St)
    (h : s.store.onboardingCompany = none) : restoreEffect env s = s := by
  simp [restoreEffect, h]

/-- Characterization of the restore effect when the connected flag is not
the string true: nothing happens. -/
theorem restoreEffect_noflag (env : Env) (s : St) (cid : String)
    (h1 : s.store.onboardingCompany = some cid)
    (h2 : ¬ s.store.googleConnected = some "true") : restoreEffect env s = s := by
  simp [restoreEffect, h1, h2]

/-- Characterization of the restore effect when the store holds a company
id and the connected flag: the id and the flag are rehydrated, the snapshot
is parsed on a best-effort basis, and the step jumps to 2; the durable
store itself is not written. -/
theorem restoreEffect_hit (env : Env) (s : St) (cid : String)
    (h1 : s.store.onboardingCompany = some cid)
    (h2 : s.store.googleConnected = some "true") :
    restoreEffect env s =
      { s with formData := restoredForm env s, globalCompanyId := some cid
             , googleConnected := true, step := 2 } := by
  cases hf : s.store.onboardingForm with
  | none => simp [restoreEffect, restoredForm, h1, h2, hf]
  | some str =>
    cases hp : env.parse str with
    | none => simp [restoreEffect, restoredForm, h1, h2, hf, hp]
    | some f => simp [restoreEffect, restoredForm, h1, h2, hf, hp]

/-- The restore effect never writes the durable store. -/
theorem restoreEffect_store (env : Env) (s : St) :
    (restoreEffect env s).store = s.store := by
  cases hco : s.store.onboardingCompany with
  | none => rw [restoreEffect_none env s hco]
  | some cid =>
    by_cases hg : s.store.googleConnected = some "true"
    · rw [restoreEffect_hit env s cid hco hg]
    · rw [restoreEffect_noflag env s cid hco hg]

/-- Characterization: the Google button does nothing without an in-memory
company id. -/
theorem handleGoogleOAuth_none (env : Env) (s : St)
    (h : s.globalCompanyId = none) : handleGoogleOAuth env s = (s, []) := by
  simp [handleGoogleOAuth, h]

/-- Characterization: with an in-memory company id, the Google button
persists the form snapshot and then navigates to the external provider. -/
theorem handleGoogleOAuth_some (env : Env) (s : St) (cid : String)
    (h : s.globalCompanyId = some cid) :
    handleGoogleOAuth env s =
      ({ s with store := { s.store with onboardingForm := some (env.stringify s.formData) } },
       [Op.storeSetForm (env.stringify s.formData), Op.navigateExternal]) := by
  simp [handleGoogleOAuth, h]

/-- A company id found in memory after a mount was read from the durable
store. -/
theorem mount_company (env : Env) (store : Store) :
    ∀ c, (mount env store).globalCompanyId = some c → store.onboardingCompany = some c := by
  intro c hc
  unfold mount at hc
  cases hco : store.onboardingCompany with
  | none =>
    rw [restoreEffect_none env (initSt store) hco] at hc
    exact absurd hc (by simp [initSt])
  | some cid =>
    by_cases hg : store.googleConnected = some "true"
    · rw [restoreEffect_hit env (initSt store) cid hco hg] at hc
      have hc2 : (some cid : Option String) = some c := hc
      exact hc2
    · rw [restoreEffect_noflag env (initSt store) cid hco hg] at hc
      exact absurd hc (by simp [initSt])

/-- Invariant of the interactive page: whenever a company id is held in
volatile memory, the same id is already persisted in the durable store. -/
theorem reachable_company_persisted (env : Env) :
    ∀ s : St, Reachable env s →
      ∀ c, s.globalCompanyId = some c → s.store.onboardingCompany = some c := by
  intro s h
  induction h with
  | mountPage store =>
    intro c hc
    have h1 := mount_company env store c hc
    show (mount env store).store.onboardingCompany = some c
    unfold mount
    rw [restoreEffect_store]
    exact h1
  | edit s f _ ih => exact ih
  | next s r _ ih =>
    intro c
    unfold handleNext
    by_cases hv : s.step = 1 ∧ (s.formData.companyName = "" ∨ s.formData.contactEmail = "")
    · rw [if_pos hv]
      exact ih c
    · rw [if_neg hv]
      cases hg : s.globalCompanyId with
      | none =>
        cases r with
        | ok newId =>
          intro hc
          exact hc
        | err => exact ih c
      | some cid =>
        intro hc
        have hc2 : (some cid : Option String) = some c := hc
        exact ih c (hg.trans hc2)
  | google s _ hops ih =>
    intro c
    cases hg : s.globalCompanyId with
    | none =>
      rw [handleGoogleOAuth_none env s hg]
      exact ih c
    | some cid =>
      rw [handleGoogleOAuth_some env s cid hg] at hops
      exact absurd hops (by simp)
  | submit s b t d p _ hno ih =>
    intro c hc
    rw [submitResources_not_completed s b t d p hno] at hc ⊢
    exact ih c hc

/-- Claim C1: for every state whose durable store holds a company id and
the granted flag, the restore effect yields step 2 (the resource
configuration screen) with the id and the grant rehydrated, regardless of
the step previously held in volatile memory; the durable layout holds no
step at all, so no persisted step value can influence the result. -/
theorem resume_recomputes_step (env : Env) (s : St) (cid : String)
    (h1 : s.store.onboardingCompany = some cid)
    (h2 : s.store.googleConnected = some "true") :
    (restoreEffect env s).step = 2 ∧
    (restoreEffect env s).globalCompanyId = some cid ∧
    (restoreEffect env s).googleConnected = true := by
  rw [restoreEffect_hit env s cid h1 h2]
  exact ⟨rfl, rfl, rfl⟩

/-- Witness for claim C1 at a state with a stale volatile step of 7. -/
theorem resume_recomputes_step_holds :
    staleState.store.onboardingCompany = some "C1" ∧
    staleState.store.googleConnected = some "true" ∧
    ((restoreEffect env0 staleState).step = 2 ∧
     (restoreEffect env0 staleState).globalCompanyId = some "C1" ∧
     (restoreEffect env0 staleState).googleConnected = true) :=
  ⟨rfl, rfl, resume_recomputes_step env0 staleState "C1" rfl rfl⟩

/-- Claim C2: in every reachable interactive state with an in-memory
company id, clicking the Google button first writes the form snapshot into
the durable store and only afterwards navigates to the external provider,
and at the moment of navigation the durable store already holds the company
id and the snapshot; the state is never held only in volatile memory when
the navigation happens. -/
theorem oauth_redirect_persists_first (env : Env) (s : St) (c : String)
    (hr : Reachable env s) (h : s.globalCompanyId = some c) :
    handleGoogleOAuth env s =
      ({ s with store := { s.store with onboardingForm := some (env.stringify s.formData) } },
       [Op.storeSetForm (env.stringify s.formData), Op.navigateExternal]) ∧
    s.store.onboardingCompany = some c ∧
    (handleGoogleOAuth env s).1.store.onboardingCompany = some c := by
  have hstore := reachable_company_persisted env s hr c h
  refine ⟨handleGoogleOAuth_some env s c h, hstore, ?_⟩
  rw [handleGoogleOAuth_some env s c h]
  exact hstore

/-- Witness for claim C2 at the mount of a granted store. -/
theorem oauth_redirect_persists_first_holds :
    (mount env0 grantedStore).globalCompanyId = some "C1" ∧
    (handleGoogleOAuth env0 (mount env0 grantedStore)).1.store.onboardingCompany = some "C1" :=
  ⟨rfl, (oauth_redirect_persists_first env0 (mount env0 grantedStore) "C1"
      (Reachable.mountPage grantedStore) rfl).2.2⟩

/-- Claim C3 counterexample: after a denied redirect the durable session
still holds company id C1, and the remounted page with the retyped profile
is reachable; yet the next handler issues a fresh registration request and
overwrites the stored id with the newly returned C2 — the registrar is
re-invoked although a company id is present in the session, and the stored
company id is reassigned. -/
theorem registrar_reinvoked_after_denied_redirect :
    deniedResumeState.store.onboardingCompany = some "C1" ∧
    Reachable env0 deniedResumeState ∧
    Op.registerCall (payloadOf profile0)
      ∈ (handleNext env0 deniedResumeState (NetRes.ok "C2")).2 ∧
    (handleNext env0 deniedResumeState (NetRes.ok "C2")).1.store.onboardingCompany
      = some "C2" := by
  refine ⟨rfl, ?_, by decide, rfl⟩
  exact Reachable.edit (mount env0 deniedStore) profile0 (Reachable.mountPage deniedStore)

/-- Claim C3 amended: whenever the in-memory company id is present, the
next handler issues no operation at all (in particular it does not
re-invoke the registrar), keeps the id, and leaves the durable store
untouched; and no other user event handler ever changes the in-memory id.
After a denied redirect, however, the restore requires the granted flag, so
the stored id is not rehydrated into memory and the guard does not apply:
the registrar can then run again and overwrite the stored id. -/
theorem advance_short_circuits_on_memory_id (env : Env) (s : St) (c : String)
    (h : s.globalCompanyId = some c) :
    (∀ r, (handleNext env s r).2 = [] ∧
      (handleNext env s r).1.globalCompanyId = some c ∧
      (handleNext env s r).1.store = s.store) ∧
    (handleGoogleOAuth env s).1.globalCompanyId = some c ∧
    (∀ b t d p, (handleSubmit s b t d p).1.globalCompanyId = some c) := by
  refine ⟨?_, ?_, ?_⟩
  · intro r
    by_cases hv : s.step = 1 ∧ (s.formData.companyName = "" ∨ s.formData.contactEmail = "")
    · rw [handleNext_blocked env s r hv]
      exact ⟨rfl, h, rfl⟩
    · rw [handleNext_short env s r c hv h]
      exact ⟨rfl, h, rfl⟩
  · rw [handleGoogleOAuth_some env s c h]
    exact h
  · intro b t d p
    rw [handleSubmit_company s b t d p]
    exact h

/-- Witness for the amended claim C3 at the mount of a granted store. -/
theorem advance_short_circuits_on_memory_id_holds :
    (mount env0 grantedStore).globalCompanyId = some "C1" ∧
    (handleNext env0 (mount env0 grantedStore) (NetRes.ok "C9")).2 = [] :=
  ⟨rfl, ((advance_short_circuits_on_memory_id env0 (mount env0 grantedStore) "C1" rfl).1
      (NetRes.ok "C9")).1⟩

/-- Claim C4 counterexample: a callback carrying an error indicator does
fail as denied and does preserve the stored company id; but the remounted
onboarding page is at step 1 (the profile screen) with no in-memory
company id, not at the authorization screen (step 2), so the claim that the
current step remains awaiting authorization and that the user can retry
without repeating earlier steps fails. -/
theorem denied_callback_loses_step :
    processOAuth { code := none, error := some "access_denied" } deniedStore (NetRes.ok ())
      = (CallbackResult.denied, deniedStore, [Op.navigateOnboarding]) ∧
    (mount env0 deniedStore).step = 1 ∧
    (mount env0 deniedStore).step ≠ 2 ∧
    (mount env0 deniedStore).globalCompanyId = none := by
  exact ⟨rfl, rfl, by decide, rfl⟩

/-- Claim C4 amended: every callback carrying an error indicator fails as
denied, makes no exchange request, and leaves the session store (hence the
stored company id) unchanged; but because the granted flag was never set,
remounting the onboarding page does not resume at the authorization
screen: it restarts at step 1 with no in-memory company id, so the user
repeats the profile step before being able to retry. -/
theorem denied_callback_preserves_session (env : Env) (p : CallbackParams) (store : Store)
    (xres : NetRes Unit) (e : String) (h : p.error = some e) :
    processOAuth p store xres = (CallbackResult.denied, store, [Op.navigateOnboarding]) ∧
    (store.googleConnected ≠ some "true" →
      (mount env store).step = 1 ∧ (mount env store).globalCompanyId = none) := by
  constructor
  · simp [processOAuth, h]
  · intro hg
    unfold mount
    cases hco : store.onboardingCompany with
    | none =>
      rw [restoreEffect_none env (initSt store) hco]
      exact ⟨rfl, rfl⟩
    | some cid =>
      rw [restoreEffect_noflag env (initSt store) cid hco hg]
      exact ⟨rfl, rfl⟩

/-- Witness for the amended claim C4 at a concrete denied callback. -/
theorem denied_callback_preserves_session_holds :
    processOAuth { code := none, error := some "denied" } grantedStore (NetRes.ok ())
      = (CallbackResult.denied, grantedStore, [Op.navigateOnboarding]) :=
  (denied_callback_preserves_session env0 { code := none, error := some "denied" }
    grantedStore (NetRes.ok ()) "denied" rfl).1

/-- Claim C5 counterexample: a callback that carries an error indicator
and arrives with no pending company id in the store fails as denied, not
with the missing context result, because the error parameter is checked
first. -/
theorem stale_error_callback_not_missing_context :
    (processOAuth { code := none, error := some "access_denied" } clearedStore
        (NetRes.ok ())).1 = CallbackResult.denied ∧
    CallbackResult.denied ≠ CallbackResult.missingContext :=
  ⟨rfl, by decide⟩

/-- Claim C5 amended: every callback arriving with no pending company id
leaves the session store untouched and issues no exchange request (the
only operation is the navigation back to the onboarding page); when such a
callback carries a code and no error indicator it fails with the missing
context result; an error-carrying or code-less callback fails as denied or
no-code instead, still without mutation. -/
theorem no_pending_id_no_mutation (p : CallbackParams) (store : Store) (xres : NetRes Unit)
    (h : store.onboardingCompany = none) :
    (processOAuth p store xres).2.1 = store ∧
    (processOAuth p store xres).2.2 = [Op.navigateOnboarding] ∧
    (p.error = none → ∀ c, p.code = some c →
      (processOAuth p store xres).1 = CallbackResult.missingContext) := by
  cases p with
  | mk code perr =>
    cases perr with
    | some e =>
      refine ⟨rfl, rfl, ?_⟩
      intro he
      exact absurd he (by simp)
    | none =>
      cases code with
      | none =>
        refine ⟨rfl, rfl, ?_⟩
        intro _ c hc
        exact absurd hc (by simp)
      | some c0 =>
        have hred : processOAuth { code := some c0, error := none } store xres
            = (CallbackResult.missingContext, store, [Op.navigateOnboarding]) := by
          simp [processOAuth, h]
        rw [hred]
        exact ⟨rfl, rfl, fun _ c _ => rfl⟩

/-- Witness for the amended claim C5 at a replayed success callback. -/
theorem no_pending_id_no_mutation_holds :
    (processOAuth { code := some "X", error := none } clearedStore (NetRes.ok ())).2.1
      = clearedStore ∧
    (processOAuth { code := some "X", error := none } clearedStore (NetRes.ok ())).1
      = CallbackResult.missingContext := by
  have h := no_pending_id_no_mutation { code := some "X", error := none } clearedStore
    (NetRes.ok ()) rfl
  exact ⟨h.1, h.2.2 rfl "X" rfl⟩

/-- Claim C6: in the step 2 submission a provisioning request is issued
only when the database binding succeeded with exactly that database id and
the database URL was nonempty; the submission completes only with a
nonempty database URL and a successful binding (the URL input is required,
so finalize without a database is blocked and reaches neither provisioning
nor terminal success); and policies are optional: with a successful binding
and provisioning and no policies the submission still completes. -/
theorem finalize_requires_database (s : St) (b : NetRes String) (t d p : NetRes Unit) :
    (∀ cid dbId, Op.provisionCall cid dbId ∈ (submitResources s b t d p).2.1 →
      b = NetRes.ok dbId ∧ s.formData.dbUrl ≠ "") ∧
    ((submitResources s b t d p).2.2 = SubmitOutcome.completed →
      s.formData.dbUrl ≠ "" ∧ ∃ i, b = NetRes.ok i) ∧
    (s.googleConnected = true → s.formData.dbUrl ≠ "" →
      jsTrim s.formData.policiesText = "" → s.formData.policyFile = none →
      ∀ i u, (submitResources s (NetRes.ok i) t d (NetRes.ok u)).2.2
        = SubmitOutcome.completed) := by
  refine ⟨?_, submitResources_completed s b t d p, ?_⟩
  · intro cid dbId hmem
    by_cases hc : s.googleConnected = true ∧ s.formData.dbUrl = ""
    · rw [submitResources_blocked s b t d p hc.1 hc.2] at hmem
      simp at hmem
    · rw [submitResources_pass s b t d p hc] at hmem
      exact handleSubmit_provision_mem s b t d p cid dbId hmem
  · intro hg hd ht hf i u
    rw [submitResources_pass s (NetRes.ok i) t d (NetRes.ok u) (fun hc => hd hc.2)]
    rw [handleSubmit_bind_ok s t d (NetRes.ok u) i hg hd]
    show (submitTextPolicy s (some i) t d (NetRes.ok u)).2.2 = SubmitOutcome.completed
    rw [submitTextPolicy_empty s (some i) t d (NetRes.ok u) ht]
    rw [submitDocPolicy_nofile s (some i) d (NetRes.ok u) hf]
    rfl

/-- Witness for claim C6: a ready state with a database URL and no
policies completes when binding and provisioning succeed. -/
theorem finalize_requires_database_holds :
    readyState.googleConnected = true ∧
    (submitResources readyState (NetRes.ok "D1") (NetRes.ok ()) (NetRes.ok ())
        (NetRes.ok ())).2.2 = SubmitOutcome.completed :=
  ⟨rfl, (finalize_requires_database readyState (NetRes.ok "D1") (NetRes.ok ())
      (NetRes.ok ()) (NetRes.ok ())).2.2 rfl (by decide) (by decide) rfl "D1" ()⟩

/-- Claim C7 counterexample: with two chosen documents and the first
upload failing, the second upload is never attempted and the wizard does
not advance, so the failure of one upload does block both the remaining
uploads and the progression of the step. -/
theorem doc_upload_failure_blocks_rest :
    (handleUploadDocs wizard0 outcome0).1.step = 2 ∧
    Op.docPolicyCall (some "C1") "leave.pdf" ∉ (handleUploadDocs wizard0 outcome0).2 ∧
    "leave.pdf" ∈ wizard0.docFiles := by
  decide

/-- Claim C7 amended: document uploads run sequentially inside one try
block; the requests performed are exactly the files up to and including
the first failing one, so a failed upload blocks the remaining uploads;
the wizard advances past the document step exactly when every upload
succeeded, a failure leaving the step unchanged to be retried, surfaced as
an error message rather than aggregated into a result object. -/
theorem doc_uploads_abort_on_failure (w : WizardState) (outcome : String → NetRes Unit) :
    (handleUploadDocs w outcome).2
      = (attemptedFiles outcome w.docFiles).map (Op.docPolicyCall (some w.companyId)) ∧
    (handleUploadDocs w outcome).1
      = (if allUploadsOk outcome w.docFiles then { w with step := 3 } else w) := by
  cases hok : allUploadsOk outcome w.docFiles with
  | true => simp [handleUploadDocs, uploadDocsLoop_spec, hok]
  | false => simp [handleUploadDocs, uploadDocsLoop_spec, hok]

/-- Claim C8: at step 1 an empty company name or contact email blocks the
next handler with no operation (no registration request) and no state or
store mutation; with both fields nonempty validation does not block the
transition: with no in-memory id the registration request is issued, and
with an in-memory id the handler advances straight to step 2. -/
theorem profile_validation_gate (env : Env) (s : St) (r : NetRes String) :
    ((s.step = 1 ∧ (s.formData.companyName = "" ∨ s.formData.contactEmail = "")) →
      handleNext env s r = (s, [])) ∧
    ((s.formData.companyName ≠ "" ∧ s.formData.contactEmail ≠ "") →
      ((s.globalCompanyId = none →
        (handleNext env s r).2.head? = some (Op.registerCall (payloadOf s.formData))) ∧
       (∀ cid, s.globalCompanyId = some cid →
        handleNext env s r = ({ s with step := 2 }, [])))) := by
  constructor
  · exact handleNext_blocked env s r
  · intro hne
    have hv : ¬ (s.step = 1 ∧ (s.formData.companyName = "" ∨ s.formData.contactEmail = "")) := by
      intro hcon
      rcases hcon.2 with h1 | h1
      · exact hne.1 h1
      · exact hne.2 h1
    constructor
    · intro h0
      cases r with
      | ok newId =>
        rw [handleNext_register_ok env s newId hv h0]
        rfl
      | err =>
        rw [handleNext_register_err env s hv h0]
        rfl
    · intro cid hcid
      exact handleNext_short env s r cid hv hcid

/-- Witness for claim C8 at the blank initial state. -/
theorem profile_validation_gate_holds :
    ((initSt clearedStore).step = 1 ∧
      ((initSt clearedStore).formData.companyName = "" ∨
       (initSt clearedStore).formData.contactEmail = "")) ∧
    handleNext env0 (initSt clearedStore) (NetRes.ok "C1") = (initSt clearedStore, []) :=
  ⟨⟨rfl, Or.inl rfl⟩,
   (profile_validation_gate env0 (initSt clearedStore) (NetRes.ok "C1")).1 ⟨rfl, Or.inl rfl⟩⟩

/-- Claim C9: every provisioning result delivers at most as many
credentials as it generates, and every failure names an employee from the
resolved records together with the reason its delivery failed. -/
theorem provision_result_counts (employees : List String) (deliver : String → Delivery) :
    (provisionCredentials employees deliver).deliveredCount
      ≤ (provisionCredentials employees deliver).generatedCount ∧
    ∀ f ∈ (provisionCredentials employees deliver).failures,
      ∃ e ∈ employees, f.employeeRef = e ∧ deliver e = Delivery.deliveryFailed f.reason := by
  constructor
  · exact List.length_filter_le _ _
  · intro f hf
    simp only [provisionCredentials, List.mem_filterMap] at hf
    obtain ⟨e, he, hm⟩ := hf
    refine ⟨e, he, ?_⟩
    cases hd : deliver e with
    | delivered =>
      rw [hd] at hm
      exact Option.noConfusion hm
    | deliveryFailed rsn =>
      rw [hd] at hm
      have hm2 : some ({ employeeRef := e, reason := rsn } : ProvisionFailure) = some f := hm
      have hf2 := Option.some.inj hm2
      rw [← hf2]
      exact ⟨rfl, rfl⟩

/-- Witness for claim C9 on two employees with one failed delivery. -/
theorem provision_result_counts_holds :
    ({ employeeRef := "E7", reason := "invalid_email" } : ProvisionFailure)
        ∈ (provisionCredentials employees0 deliver0).failures ∧
    ∃ e ∈ employees0,
      ({ employeeRef := "E7", reason := "invalid_email" } : ProvisionFailure).employeeRef = e ∧
      deliver0 e = Delivery.deliveryFailed
        ({ employeeRef := "E7", reason := "invalid_email" } : ProvisionFailure).reason :=
  ⟨by decide, (provision_result_counts employees0 deliver0).2 _ (by decide)⟩

/-- Claim C10: when the durable form snapshot exists but does not parse,
the restore effect swallows the failure: the mount still rehydrates the
company id, still treats authorization as granted, still jumps to the
resource configuration step with the default empty form fields, and
neither aborts the resumption nor clears the store. -/
theorem corrupt_snapshot_resume_defaults (env : Env) (store : Store) (cid fstr : String)
    (h1 : store.onboardingCompany = some cid)
    (h2 : store.googleConnected = some "true")
    (h3 : store.onboardingForm = some fstr)
    (h4 : env.parse fstr = none) :
    mount env store =
      { step := 2, formData := initialFormData, globalCompanyId := some cid
      , googleConnected := true, store := store } := by
  unfold mount
  rw [restoreEffect_hit env (initSt store) cid h1 h2]
  have hform : restoredForm env (initSt store) = initialFormData := by
    simp [restoredForm, initSt, h3, h4]
  rw [hform]
  rfl

/-- Witness for claim C10 on a granted store whose snapshot fails to
parse. -/
theorem corrupt_snapshot_resume_defaults_holds :
    mount env0 grantedStore =
      { step := 2, formData := initialFormData, globalCompanyId := some "C1"
      , googleConnected := true, store := grantedStore } :=
  corrupt_snapshot_resume_defaults env0 grantedStore "C1" "bad json" rfl rfl rfl rfl

end HRSupport
